import Mathlib

/-!
Shallow embedding of `src/backend.js` (sunglass_backend): an Express HTTP
relay with three routes — `POST /api/send-email`, `GET /api/health`,
`POST /api/sendgrid-webhook` — plus a rate-limit middleware on the
send-email route.  JavaScript string-or-undefined values are modelled as
`Option String` (with `none` for an absent field), and JavaScript
truthiness of such values (`undefined` and `""` are falsy) is made
explicit by `truthy`.  Thrown vendor errors are modelled as a data value
(`SgError`), and the unguarded `JSON.parse` of the webhook handler is
modelled as an `Except` input.
-/

set_option autoImplicit false

namespace SunglassBackend

/-- JavaScript truthiness of a string-or-undefined value: `undefined`
(`none`) and the empty string are falsy; every other string is truthy. -/
def truthy : Option String → Bool
  | none => false
  | some s => !(s == "")

/-- JavaScript `a || b` on a string-or-undefined value `a` with a
string-or-undefined fallback `b` (used for `html || text`). -/
def jsOr (a b : Option String) : Option String :=
  if truthy a then a else b

/-- JavaScript `a || b` on a string-or-undefined value `a` with a string
fallback `b` (used for the sender-default chains, whose last link is a
nonempty string literal). -/
def jsOrStr (a : Option String) (b : String) : String :=
  if truthy a then a.getD b else b

/-- JavaScript `a || b` on a number-or-undefined value `a` with a `Nat`
fallback `b` (used for `error.code || 500`; the number `0` is falsy). -/
def jsOrNat (a : Option Nat) (b : Nat) : Nat :=
  match a with
  | none => b
  | some n => if n = 0 then b else n

/-- The process environment fields read by the send-email handler
(`process.env.FROM_EMAIL`, `process.env.FROM_NAME`).  The API key and the
port are consumed at startup only and play no part in any handler's
request/response mapping. -/
structure Env where
  FROM_EMAIL : Option String
  FROM_NAME : Option String
deriving DecidableEq

/-- The JSON body of a `POST /api/send-email` request:
`{ to, subject, text, html, fromEmail, fromName }` as destructured on
line 41 of `src/backend.js`.  `none` models an absent field. -/
structure EmailRequest where
  to_ : Option String
  subject : Option String
  text : Option String
  html : Option String
  fromEmail : Option String
  fromName : Option String
deriving DecidableEq

/-- The `from` object of the vendor payload: `{ email, name }`. -/
structure FromField where
  email : String
  name : String
deriving DecidableEq

/-- The `trackingSettings` object of the vendor payload:
`clickTracking.enable` and `openTracking.enable`. -/
structure TrackingSettings where
  clickTracking : Bool
  openTracking : Bool
deriving DecidableEq

/-- The vendor send payload `msg` built on lines 51-64 of
`src/backend.js`.  (`from` is a reserved word in Lean, hence `from_`.) -/
structure Msg where
  to_ : Option String
  from_ : FromField
  subject : Option String
  text : Option String
  html : Option String
  trackingSettings : TrackingSettings
deriving DecidableEq

/-- Builds the vendor payload exactly as lines 51-64 of `src/backend.js`:
sender email defaults through `fromEmail || process.env.FROM_EMAIL ||
'anya.sunglassretailer@gmail.com'`, sender name through `fromName ||
process.env.FROM_NAME || 'Anya Ganger'`, and the HTML body through
`html || text`; click and open tracking are enabled. -/
def mkMsg (env : Env) (req : EmailRequest) : Msg :=
  { to_ := req.to_
    from_ :=
      { email := jsOrStr req.fromEmail
          (jsOrStr env.FROM_EMAIL "anya.sunglassretailer@gmail.com")
        name := jsOrStr req.fromName (jsOrStr env.FROM_NAME "Anya Ganger") }
    subject := req.subject
    text := req.text
    html := jsOr req.html req.text
    trackingSettings := { clickTracking := true, openTracking := true } }

/-- The `error.response.body` of a vendor-API error: its `errors` field
may be absent (`none`), in which case `errors || error.message` falls
back to the error message. -/
structure SgErrorBody where
  errors : Option (List String)
deriving DecidableEq

/-- A thrown vendor error as the catch block of `src/backend.js` reads
it: `error.code` (a number or absent; used as `error.code || 500`),
`error.message`, and `error.response` whose presence distinguishes a
vendor-API error from any other failure.  `response` is modelled directly
by its `body`. -/
structure SgError where
  code : Option Nat
  message : String
  response : Option SgErrorBody
deriving DecidableEq

/-- Outcome of one call to the vendor send operation `sgMail.send(msg)`:
either a resolved response, of which the handler reads only
`response[0].headers['x-message-id']` (a header that may be absent), or a
thrown `SgError`. -/
inductive SendOutcome where
  | success (xMessageId : Option String)
  | failure (e : SgError)
deriving DecidableEq

/-- The `details` field of an error response: the vendor error list when
`error.response.body.errors` is set, the error message otherwise. -/
inductive SgDetails where
  | list (errors : List String)
  | msg (m : String)
deriving DecidableEq

/-- The JSON or plain-text body of an HTTP response produced by one of
the three handlers or by the rate-limit middleware. -/
inductive ResBody where
  | jsonError (error : String)
  | jsonSuccess (success : Bool) (messageId : Option String) (message : String)
  | jsonVendorError (error : String) (details : SgDetails)
  | jsonHealth (status : String) (message : String)
  | text (s : String)
deriving DecidableEq

/-- An HTTP response: status code and body. -/
structure Response where
  status : Nat
  body : ResBody
deriving DecidableEq

/-- The fixed 400 response of the send-email handler's field validation
(lines 44-48 of `src/backend.js`). -/
def missingFieldsResponse : Response :=
  ⟨400, .jsonError "Missing required fields: to, subject, and text/html"⟩

/-- The code's validation condition, packaged positively: the request
passes the check on line 44 of `src/backend.js`
(`!to || !subject || (!text && !html)`) exactly when this is `true`. -/
def validReq (req : EmailRequest) : Bool :=
  truthy req.to_ && truthy req.subject && (truthy req.text || truthy req.html)

/-- The `POST /api/send-email` handler (lines 39-97 of `src/backend.js`).
`vendor` is the behaviour of `sgMail.send` for this request; the second
component of the result records the payloads passed to the vendor send
operation, in order, so that claims about how often and with what payload
the vendor is invoked are expressible. -/
def sendEmailHandler (env : Env) (vendor : SendOutcome) (req : EmailRequest) :
    Response × List Msg :=
  if !truthy req.to_ || !truthy req.subject ||
      (!truthy req.text && !truthy req.html) then
    (missingFieldsResponse, [])
  else
    let msg := mkMsg env req
    match vendor with
    | .success xMessageId =>
        (⟨200, .jsonSuccess true xMessageId "Email sent successfully"⟩, [msg])
    | .failure e =>
        match e.response with
        | some rbody =>
            (⟨jsOrNat e.code 500,
              .jsonVendorError "SendGrid API error"
                (match rbody.errors with
                 | some l => .list l
                 | none => .msg e.message)⟩, [msg])
        | none =>
            (⟨500, .jsonVendorError "Server error" (.msg e.message)⟩, [msg])

/-- The `GET /api/health` handler (lines 100-102 of `src/backend.js`): a
constant function of the request. -/
def healthHandler (_req : Unit) : Response :=
  ⟨200, .jsonHealth "OK" "Backend is running"⟩

/-- One vendor delivery event as the webhook handler reads it:
`event.email`, `event.event`, `event.timestamp`, `event.sg_message_id`,
each possibly absent. -/
structure WebhookEvent where
  email : Option String
  event : Option String
  timestamp : Option Nat
  sg_message_id : Option String
deriving DecidableEq

/-- The per-event dispatch of the webhook handler (lines 121-135 of
`src/backend.js`): a switch on `event.event` whose five labelled branches
(`delivered`, `open`, `click`, `bounce`, `dropped`) are all empty. -/
def handleEvent (e : WebhookEvent) : Unit :=
  match e.event with
  | some "delivered" => ()
  | some "open" => ()
  | some "click" => ()
  | some "bounce" => ()
  | some "dropped" => ()
  | _ => ()

/-- The `POST /api/sendgrid-webhook` handler (lines 109-139 of
`src/backend.js`).  Its input is the outcome of
`JSON.parse(req.body.toString())`: `.ok events` for a body that parses as
an array of events, `.error m` for a body on which `JSON.parse` throws.
The parse is not wrapped in any try/catch, so a thrown parse error
escapes the handler and no `200 "OK"` response is produced for that
request — modelled by propagating the `.error`. -/
def sendgridWebhookHandler (parsedBody : Except String (List WebhookEvent)) :
    Except String Response :=
  match parsedBody with
  | .error m => .error m
  | .ok events =>
      let _ := events.map handleEvent
      .ok ⟨200, .text "OK"⟩

/-- The rate-limit middleware configuration on lines 31-36 of
`src/backend.js`: a 15-minute window and a cap of 100 requests per source
per window. -/
def emailRateLimitWindowMs : Nat := 15 * 60 * 1000

/-- The `max` option of the rate limiter: at most 100 requests per source
per window. -/
def emailRateLimitMax : Nat := 100

/-- The fixed rejection response of the rate limiter: its configured
`message`, served with the middleware's default 429 status. -/
def rateLimitResponse : Response :=
  ⟨429, .text "Too many email requests, please try again later."⟩

/-- Modelled from the spec and the middleware configuration on lines
31-36 of `src/backend.js` (the `express-rate-limit` package itself is not
part of this repository): within one window, a request from a given
source is passed to the wrapped handler while fewer than
`emailRateLimitMax` requests from that source have been counted, and
receives the fixed rejection response otherwise. -/
def emailRoute (env : Env) (vendor : SendOutcome) (priorCount : Nat)
    (req : EmailRequest) : Response × List Msg :=
  if priorCount < emailRateLimitMax then sendEmailHandler env vendor req
  else (rateLimitResponse, [])

/-- Processes a sequence of `/api/send-email` requests arriving from a
single source within a single 15-minute window, starting from a given
prior request count; returns the response and vendor-call record of each
request in order. -/
def processWindow (env : Env) (vendor : SendOutcome) :
    Nat → List EmailRequest → List (Response × List Msg)
  | _, [] => []
  | n, req :: reqs =>
      emailRoute env vendor n req :: processWindow env vendor (n + 1) reqs

/-! ### Concrete sample values used by witnesses and counterexamples -/

/-- An environment with neither sender default set. -/
def envNone : Env := ⟨none, none⟩

/-- An environment carrying both sender defaults, as in the sample `.env`
of `src/backend.js`. -/
def envSample : Env := ⟨some "ganger@wharton.upenn.edu", some "Anya Ganger"⟩

/-- The sample request of the curl test in `src/backend.js`: all three
required fields nonempty, no overrides. -/
def reqFull : EmailRequest :=
  ⟨some "samanthamdurrant@gmail.com", some "Test Email",
   some "This is a test email from the sunglasses dashboard!", none, none, none⟩

/-- A request whose recipient field is present but empty. -/
def reqEmptyTo : EmailRequest :=
  ⟨some "", some "Test Email",
   some "This is a test email from the sunglasses dashboard!", none, none, none⟩

/-- A request with no recipient field at all. -/
def reqNoTo : EmailRequest :=
  ⟨none, some "Test Email",
   some "This is a test email from the sunglasses dashboard!", none, none, none⟩

/-- A vendor-API error: HTTP 403 with one entry in
`error.response.body.errors`. -/
def sgBody403 : SgErrorBody :=
  ⟨some ["The from address does not match a verified Sender Identity"]⟩

/-- The thrown error carrying `sgBody403`. -/
def sgErr403 : SgError := ⟨some 403, "Forbidden", some sgBody403⟩

/-- A plain thrown error: no `response` field, message only. -/
def sgErrPlain : SgError := ⟨none, "socket hang up", none⟩

/-- 101 copies of the sample request, arriving from one source within
one 15-minute window. -/
def reqsWindow : List EmailRequest := List.replicate 101 reqFull

/-! ### Helper lemmas -/

/-- The early-return condition on line 44 of `src/backend.js` is the
negation of `validReq`, as a Boolean identity. -/
theorem validation_cond_eq : ∀ a b c d : Bool,
    (!a || !b || (!c && !d)) = !(a && b && (c || d)) := by decide

/-- Truthiness facts used throughout: an absent field is falsy. -/
theorem truthy_none : truthy none = false := rfl

/-- Truthiness facts used throughout: a present-but-empty field is falsy. -/
theorem truthy_some_empty : truthy (some "") = false := rfl

/-- A request that fails the validation check is answered with the fixed
400 response, and the vendor send operation is never reached. -/
theorem sendEmailHandler_invalid (env : Env) (vendor : SendOutcome)
    (req : EmailRequest) (h : validReq req = false) :
    sendEmailHandler env vendor req = (missingFieldsResponse, []) := by
  unfold sendEmailHandler
  rw [validation_cond_eq]
  unfold validReq at h
  rw [h]
  rfl

/-- Evaluation of the handler on a valid request when the vendor send
resolves. -/
theorem sendEmailHandler_valid_success (env : Env) (req : EmailRequest)
    (mid : Option String) (h : validReq req = true) :
    sendEmailHandler env (.success mid) req =
      (⟨200, .jsonSuccess true mid "Email sent successfully"⟩, [mkMsg env req]) := by
  unfold sendEmailHandler
  rw [validation_cond_eq]
  unfold validReq at h
  rw [h]
  rfl

/-- Evaluation of the handler on a valid request when the vendor send
throws. -/
theorem sendEmailHandler_valid_failure (env : Env) (req : EmailRequest)
    (e : SgError) (h : validReq req = true) :
    sendEmailHandler env (.failure e) req =
      (match e.response with
       | some rbody =>
           (⟨jsOrNat e.code 500,
             .jsonVendorError "SendGrid API error"
               (match rbody.errors with
                | some l => SgDetails.list l
                | none => SgDetails.msg e.message)⟩, [mkMsg env req])
       | none =>
           (⟨500, .jsonVendorError "Server error" (.msg e.message)⟩,
            [mkMsg env req])) := by
  unfold sendEmailHandler
  rw [validation_cond_eq]
  unfold validReq at h
  rw [h]
  rfl

/-- Position `i` of a window processed from prior count `n`: the wrapped
handler answers while the running count stays below the cap, the fixed
rejection answers afterwards. -/
theorem processWindow_getElem (env : Env) (vendor : SendOutcome) :
    ∀ (reqs : List EmailRequest) (n i : Nat) (h : i < reqs.length),
      (processWindow env vendor n reqs)[i]? =
        some (if n + i < emailRateLimitMax
              then sendEmailHandler env vendor reqs[i]
              else (rateLimitResponse, []))
  | [], _, _, h => absurd h (by simp)
  | req :: reqs, n, 0, _ => by
      simp [processWindow, emailRoute]
  | req :: reqs, n, i + 1, h => by
      have h' : i < reqs.length := Nat.lt_of_succ_lt_succ h
      have ih := processWindow_getElem env vendor reqs (n + 1) i h'
      simp only [processWindow, List.getElem?_cons_succ, ih,
        List.getElem_cons_succ]
      have harith : n + 1 + i = n + (i + 1) := by omega
      rw [harith]

/-! ### Claims -/

/-- Claim C1: for every send-email request in which `to` is missing,
`subject` is missing, or both `text` and `html` are missing, the handler
responds 400 with the fixed missing-fields error message (and hence makes
no vendor call), whatever the remaining fields and the vendor behaviour. -/
theorem sendEmail_missing_fields_400 (env : Env) (vendor : SendOutcome)
    (req : EmailRequest)
    (h : req.to_ = none ∨ req.subject = none ∨
         (req.text = none ∧ req.html = none)) :
    sendEmailHandler env vendor req = (missingFieldsResponse, []) := by
  apply sendEmailHandler_invalid
  unfold validReq
  rcases h with h | h | ⟨h1, h2⟩
  · simp [h, truthy_none]
  · simp [h, truthy_none]
  · simp [h1, h2, truthy_none]

/-- Witness for C1 at a concrete request that omits `to`. -/
theorem sendEmail_missing_fields_400_witness :
    reqNoTo.to_ = none ∧
    sendEmailHandler envNone (.success (some "abc123")) reqNoTo =
      (missingFieldsResponse, []) :=
  ⟨rfl, sendEmail_missing_fields_400 envNone (.success (some "abc123")) reqNoTo
    (Or.inl rfl)⟩

/-- Claim C8: every request to `GET /api/health` is answered 200 with
`{status: "OK", message: "Backend is running"}`; the handler is a
constant function, so the answer is independent of any other state. -/
theorem health_always_ok (req : Unit) :
    healthHandler req = ⟨200, .jsonHealth "OK" "Backend is running"⟩ := rfl

/-- Witness for C8 at the (unique) concrete health request. -/
theorem health_always_ok_witness :
    healthHandler () = ⟨200, .jsonHealth "OK" "Backend is running"⟩ :=
  health_always_ok ()

/-- Claim C9: a send-email request that fails field validation is
answered with the 400 missing-fields response and an empty vendor-call
record: the handler returns before the vendor payload is built, so no
outbound vendor call happens. -/
theorem sendEmail_invalid_no_vendor_call (env : Env) (vendor : SendOutcome)
    (req : EmailRequest) (h : validReq req = false) :
    sendEmailHandler env vendor req = (missingFieldsResponse, []) :=
  sendEmailHandler_invalid env vendor req h

/-- Witness for C9 at a concrete invalid request. -/
theorem sendEmail_invalid_no_vendor_call_witness :
    validReq reqNoTo = false ∧
    sendEmailHandler envSample (.failure sgErr403) reqNoTo =
      (missingFieldsResponse, []) :=
  ⟨rfl, sendEmail_invalid_no_vendor_call envSample (.failure sgErr403) reqNoTo
    rfl⟩

/-- Claim C10: validation tests truthiness, not presence: a request whose
`to` or `subject` is the empty string, or whose `text` and `html` are
both empty strings, is answered 400 with the missing-fields message even
though every field is present in the request body. -/
theorem sendEmail_empty_string_fields_400 (env : Env) (vendor : SendOutcome)
    (req : EmailRequest)
    (h : req.to_ = some "" ∨ req.subject = some "" ∨
         (req.text = some "" ∧ req.html = some "")) :
    sendEmailHandler env vendor req = (missingFieldsResponse, []) := by
  apply sendEmailHandler_invalid
  unfold validReq
  rcases h with h | h | ⟨h1, h2⟩
  · simp [h, truthy_some_empty]
  · simp [h, truthy_some_empty]
  · simp [h1, h2, truthy_some_empty]

/-- Witness for C10 at a concrete request whose `to` is present but
empty. -/
theorem sendEmail_empty_string_fields_400_witness :
    reqEmptyTo.to_ = some "" ∧
    sendEmailHandler envNone (.success (some "abc123")) reqEmptyTo =
      (missingFieldsResponse, []) :=
  ⟨rfl, sendEmail_empty_string_fields_400 envNone (.success (some "abc123"))
    reqEmptyTo (Or.inl rfl)⟩

/-- Claim C2 counterexample: a request whose `to`, `subject` and `text`
fields are all present (so it is valid in the sense of field presence)
on which the handler nevertheless makes no vendor call, because the
present-but-empty `to` fails the truthiness check: the vendor-call record
is empty, not of length one. -/
theorem sendEmail_present_not_invoked_cex :
    reqEmptyTo.to_.isSome = true ∧ reqEmptyTo.subject.isSome = true ∧
    reqEmptyTo.text.isSome = true ∧
    (sendEmailHandler envNone (.success (some "abc123")) reqEmptyTo).2 = [] :=
  ⟨rfl, rfl, rfl, rfl⟩

/-- Claim C2, amended: for every request passing the handler's
truthiness validation (`to` and `subject` nonempty, at least one of
`text`/`html` nonempty), the vendor send operation is invoked exactly
once, with payload `mkMsg env req`; in that payload the sender email
(resp. name) is taken from the process configuration whenever
`fromEmail` (resp. `fromName`) is absent and the configured value is
nonempty, and the HTML body equals the text body whenever `html` is
absent. -/
theorem sendEmail_valid_one_vendor_call (env : Env) (vendor : SendOutcome)
    (req : EmailRequest) (hv : validReq req = true) :
    (sendEmailHandler env vendor req).2 = [mkMsg env req] ∧
    (req.fromEmail = none → ∀ s : String, env.FROM_EMAIL = some s → s ≠ "" →
      (mkMsg env req).from_.email = s) ∧
    (req.fromName = none → ∀ s : String, env.FROM_NAME = some s → s ≠ "" →
      (mkMsg env req).from_.name = s) ∧
    (req.html = none → (mkMsg env req).html = req.text) := by
  refine ⟨?_, ?_, ?_, ?_⟩
  · cases vendor with
    | success mid => rw [sendEmailHandler_valid_success env req mid hv]
    | failure e =>
        rw [sendEmailHandler_valid_failure env req e hv]
        cases e.response <;> rfl
  · intro h s hs hne
    have hb : (s == "") = false := beq_eq_false_iff_ne.mpr hne
    simp [mkMsg, jsOrStr, truthy, h, hs, hb]
  · intro h s hs hne
    have hb : (s == "") = false := beq_eq_false_iff_ne.mpr hne
    simp [mkMsg, jsOrStr, truthy, h, hs, hb]
  · intro h
    simp [mkMsg, jsOr, truthy, h]

/-- Witness for the amended C2 at the sample request: exactly one vendor
call, carrying the defaulted payload. -/
theorem sendEmail_valid_one_vendor_call_witness :
    validReq reqFull = true ∧
    (sendEmailHandler envSample (.success (some "abc123")) reqFull).2 =
      [mkMsg envSample reqFull] :=
  ⟨rfl,
   (sendEmail_valid_one_vendor_call envSample (.success (some "abc123"))
     reqFull rfl).1⟩

/-- Claim C3: for every request passing validation, when the vendor send
throws an error carrying a response body whose `errors` list is set, the
handler responds with `details` equal to that list and with status
`error.code || 500`: the vendor status code when it is a nonzero number,
500 when it is absent. -/
theorem sendEmail_vendor_api_error (env : Env) (req : EmailRequest)
    (e : SgError) (rbody : SgErrorBody) (l : List String)
    (hv : validReq req = true) (hr : e.response = some rbody)
    (hl : rbody.errors = some l) :
    (sendEmailHandler env (.failure e) req).1 =
      ⟨jsOrNat e.code 500, .jsonVendorError "SendGrid API error" (.list l)⟩ ∧
    (e.code = none → jsOrNat e.code 500 = 500) ∧
    (∀ c : Nat, e.code = some c → c ≠ 0 → jsOrNat e.code 500 = c) := by
  refine ⟨?_, ?_, ?_⟩
  · rw [sendEmailHandler_valid_failure env req e hv, hr]
    simp [hl]
  · intro hc; rw [hc]; rfl
  · intro c hc hc0; rw [hc]; simp [jsOrNat, hc0]

/-- Witness for C3 at the sample request and a concrete 403 vendor
error. -/
theorem sendEmail_vendor_api_error_witness :
    validReq reqFull = true ∧
    (sendEmailHandler envNone (.failure sgErr403) reqFull).1 =
      ⟨403, .jsonVendorError "SendGrid API error"
        (.list ["The from address does not match a verified Sender Identity"])⟩ :=
  ⟨rfl,
   ((sendEmail_vendor_api_error envNone reqFull sgErr403 sgBody403
      ["The from address does not match a verified Sender Identity"]
      rfl rfl rfl).1).trans rfl⟩

/-- Claim C4: for every request passing validation, when the vendor send
resolves, the handler responds 200 with `success: true` and `messageId`
equal to the message identifier read from the vendor response. -/
theorem sendEmail_success_200 (env : Env) (req : EmailRequest)
    (mid : Option String) (hv : validReq req = true) :
    (sendEmailHandler env (.success mid) req).1 =
      ⟨200, .jsonSuccess true mid "Email sent successfully"⟩ := by
  rw [sendEmailHandler_valid_success env req mid hv]

/-- Witness for C4 at the sample request and a concrete vendor message
identifier. -/
theorem sendEmail_success_200_witness :
    validReq reqFull = true ∧
    (sendEmailHandler envSample (.success (some "abc123")) reqFull).1 =
      ⟨200, .jsonSuccess true (some "abc123") "Email sent successfully"⟩ :=
  ⟨rfl, sendEmail_success_200 envSample reqFull (some "abc123") rfl⟩

/-- Claim C5 counterexample: a request body on which `JSON.parse` throws
is not answered 200 `"OK"`: the parse error escapes the handler, so the
claimed response is not produced for that body. -/
theorem webhook_parse_error_cex :
    sendgridWebhookHandler
        (.error "Unexpected token o in JSON at position 1") ≠
      .ok ⟨200, .text "OK"⟩ := by
  simp [sendgridWebhookHandler]

/-- Claim C5, amended: for every request body that parses as a JSON
array of events, the webhook handler responds 200 with plain-text
`"OK"`, regardless of the events' content and of the (empty) dispatch
branches; a body on which the parse throws instead propagates the error
unhandled and produces no such response. -/
theorem webhook_parsed_always_ok (events : List WebhookEvent) :
    sendgridWebhookHandler (.ok events) = .ok ⟨200, .text "OK"⟩ := rfl

/-- Witness for the amended C5 at a concrete parsed body with one
delivered event and one event of unrecognised kind. -/
theorem webhook_parsed_always_ok_witness :
    sendgridWebhookHandler
        (.ok [⟨some "samanthamdurrant@gmail.com", some "delivered",
               some 1712345678, some "abc123"⟩,
              ⟨none, some "processed", none, none⟩]) =
      .ok ⟨200, .text "OK"⟩ :=
  webhook_parsed_always_ok
    [⟨some "samanthamdurrant@gmail.com", some "delivered",
      some 1712345678, some "abc123"⟩,
     ⟨none, some "processed", none, none⟩]

/-- Claim C6: for every request passing validation, when the vendor send
throws an error with no response body, the handler responds 500 with
error `"Server error"` and `details` equal to the thrown error's
message. -/
theorem sendEmail_plain_error_500 (env : Env) (req : EmailRequest)
    (e : SgError) (hv : validReq req = true) (hr : e.response = none) :
    (sendEmailHandler env (.failure e) req).1 =
      ⟨500, .jsonVendorError "Server error" (.msg e.message)⟩ := by
  rw [sendEmailHandler_valid_failure env req e hv, hr]

/-- Witness for C6 at the sample request and a concrete plain error. -/
theorem sendEmail_plain_error_500_witness :
    validReq reqFull = true ∧
    (sendEmailHandler envNone (.failure sgErrPlain) reqFull).1 =
      ⟨500, .jsonVendorError "Server error" (.msg "socket hang up")⟩ :=
  ⟨rfl, sendEmail_plain_error_500 envNone reqFull sgErrPlain rfl rfl⟩

/-- Claim C7: in a sequence of send-email requests from a single source
within one 15-minute window, each of the first 100 positions is answered
by the normal send-email handler, and every position from the 101st
onward is answered with the fixed rate-limit rejection instead. -/
theorem emailRateLimit_window (env : Env) (vendor : SendOutcome)
    (reqs : List EmailRequest) (i : Nat) (h : i < reqs.length) :
    (i < emailRateLimitMax →
      (processWindow env vendor 0 reqs)[i]? =
        some (sendEmailHandler env vendor reqs[i])) ∧
    (emailRateLimitMax ≤ i →
      (processWindow env vendor 0 reqs)[i]? =
        some (rateLimitResponse, [])) := by
  have key := processWindow_getElem env vendor reqs 0 i h
  rw [Nat.zero_add] at key
  constructor
  · intro hi
    rw [key, if_pos hi]
  · intro hi
    rw [key, if_neg (by omega)]

/-- Witness for C7: in a window of 101 copies of the sample request, the
101st (index 100) receives the rate-limit rejection. -/
theorem emailRateLimit_window_witness :
    100 < reqsWindow.length ∧
    (processWindow envSample (.success (some "abc123")) 0 reqsWindow)[100]? =
      some (rateLimitResponse, []) :=
  ⟨by simp [reqsWindow],
   (emailRateLimit_window envSample (.success (some "abc123")) reqsWindow 100
     (by simp [reqsWindow])).2 (by decide)⟩

end SunglassBackend
